import Mathlib

/-!
Shallow embedding of the LegalCase-Management-System backend (Express +
Mongoose) for specification checking. Monetary values are modelled as
rationals, document ids as natural numbers, and each route handler as a
pure function from its inputs (request body, fetched documents) to a
response together with the resulting stored state.
-/

namespace LegalCMS

/-! ## Invoice data model (server/models/Invoice.js) -/

/-- A line item of an invoice, as stored (items subdocument schema). -/
structure InvoiceItem where
  description : String
  quantity : ℚ
  rate : ℚ
  amount : ℚ
deriving DecidableEq

/-- An Invoice document. Fields follow `invoiceSchema`; `paid` defaults to 0,
`status` to "Unpaid", `clientStatus` to "Not Viewed". -/
structure Invoice where
  invoiceNo : String
  clientId : String
  clientName : String
  issueDate : Int
  dueDate : Int
  items : List InvoiceItem
  subtotal : ℚ
  taxRate : ℚ
  taxAmount : ℚ
  total : ℚ
  paid : ℚ
  status : String
  clientStatus : String
  notes : Option String
  createdBy : Nat
deriving DecidableEq

/-- The `balanceDue` virtual: `this.total - this.paid` (Invoice.js line 101). -/
def Invoice.balanceDue (inv : Invoice) : ℚ :=
  inv.total - inv.paid

/-- The serialized (toJSON) form of an invoice: the schema sets
`toJSON {virtuals : true}`, so the virtual `balanceDue` appears as a field
next to the stored ones. -/
structure InvoiceJson where
  invoiceNo : String
  clientId : String
  clientName : String
  issueDate : Int
  dueDate : Int
  items : List InvoiceItem
  subtotal : ℚ
  taxRate : ℚ
  taxAmount : ℚ
  total : ℚ
  paid : ℚ
  status : String
  clientStatus : String
  notes : Option String
  createdBy : Nat
  balanceDue : ℚ
deriving DecidableEq

/-- Serialization of an invoice document with virtuals included. -/
def Invoice.toJSON (inv : Invoice) : InvoiceJson :=
  { invoiceNo := inv.invoiceNo
    clientId := inv.clientId
    clientName := inv.clientName
    issueDate := inv.issueDate
    dueDate := inv.dueDate
    items := inv.items
    subtotal := inv.subtotal
    taxRate := inv.taxRate
    taxAmount := inv.taxAmount
    total := inv.total
    paid := inv.paid
    status := inv.status
    clientStatus := inv.clientStatus
    notes := inv.notes
    createdBy := inv.createdBy
    balanceDue := inv.balanceDue }

/-! ## Payment recording (invoices.js, POST /:id/payments, lines 268-305) -/

/-- Response of the payment route: an HTTP error or the updated invoice. -/
inductive PaymentResponse where
  | err (httpStatus : Nat) (msg : String)
  | ok (inv : Invoice)
deriving DecidableEq

/-- The update performed on the fetched invoice: new cumulative paid amount
and the recomputed status (lines 280-299). -/
def applyPayment (inv : Invoice) (a : ℚ) : Invoice :=
  let newPaidAmount := inv.paid + a
  let status :=
    if newPaidAmount ≥ inv.total then "Paid"
    else if newPaidAmount > 0 then "Partially Paid"
    else "Unpaid"
  { inv with paid := newPaidAmount, status := status }

/-- The payment route handler. `amount` is `none` when the request body's
amount is absent or not a number (`!amount || isNaN(amount)`); `invoice` is
the result of `findById`. -/
def recordPayment (invoice : Option Invoice) (amount : Option ℚ) : PaymentResponse :=
  match amount with
  | none => .err 400 "Valid payment amount is required"
  | some a =>
    if a ≤ 0 then .err 400 "Valid payment amount is required"
    else
      match invoice with
      | none => .err 404 "Invoice not found"
      | some inv => .ok (applyPayment inv a)

/-! ## Invoice number generation (invoices.js, POST /, lines 134-136) -/

/-- JavaScript `String.prototype.padStart` restricted to a single-character
pad string: a string shorter than `targetLength` is prefixed with copies of
`pad` up to that length, a longer one is returned unchanged. -/
def padStart (s : String) (targetLength : Nat) (pad : Char) : String :=
  if targetLength ≤ s.length then s
  else String.mk (List.replicate (targetLength - s.length) pad) ++ s

/-- `INV-${String(count + 1).padStart(6, '0')}` (line 136). -/
def genInvoiceNo (count : Nat) : String :=
  "INV-" ++ padStart (toString (count + 1)) 6 '0'

/-- Modelled from the spec's words, for comparison with `genInvoiceNo`:
"the string INV- followed by the decimal representation of n + 1 left-padded
with zeros to six digits". -/
def specInvoiceNo (n : Nat) : String :=
  let digits := toString (n + 1)
  "INV-" ++ String.mk (List.replicate (6 - digits.length) '0') ++ digits

theorem string_data_ext {a b : String} (h : a.data = b.data) : a = b := by
  cases a; cases b; exact congrArg String.mk h

theorem string_data_append (a b : String) : (a ++ b).data = a.data ++ b.data := rfl

theorem genInvoiceNo_eq_spec (n : Nat) : genInvoiceNo n = specInvoiceNo n := by
  unfold genInvoiceNo specInvoiceNo padStart
  by_cases h : 6 ≤ (toString (n + 1)).length
  · apply string_data_ext
    simp [string_data_append, h, Nat.sub_eq_zero_of_le h]
  · apply string_data_ext
    simp [string_data_append, h]

/-! ## Invoice creation (invoices.js, POST /, lines 74-192) -/

/-- An item of the request body. `none` components model absent or
non-numeric (NaN) values, which the handler's checks reject. -/
structure InvoiceItemBody where
  description : Option String
  quantity : Option ℚ
  rate : Option ℚ
  amount : Option ℚ
deriving DecidableEq

/-- The request body of invoice creation. Dates are `none` when
`new Date(...)` yields an invalid date. -/
structure InvoiceBody where
  clientId : Option String
  clientName : Option String
  issueDate : Option Int
  dueDate : Option Int
  items : Option (List InvoiceItemBody)
  subtotal : Option ℚ
  taxRate : Option ℚ
  taxAmount : Option ℚ
  total : Option ℚ
  notes : Option String
deriving DecidableEq

/-- The per-item validation loop (lines 111-124): the first failing check of
the first failing item produces the error message. -/
def validateItems : List InvoiceItemBody → Option String
  | [] => none
  | item :: rest =>
    match item.description with
    | none => some "Item description is required"
    | some d =>
      if d = "" then some "Item description is required"
      else
        match item.quantity with
        | none => some "Item quantity must be a positive number"
        | some q =>
          if q ≤ 0 then some "Item quantity must be a positive number"
          else
            match item.rate with
            | none => some "Item rate must be a non-negative number"
            | some r =>
              if r < 0 then some "Item rate must be a non-negative number"
              else
                match item.amount with
                | none => some "Item amount must be a non-negative number"
                | some a =>
                  if a < 0 then some "Item amount must be a non-negative number"
                  else validateItems rest

/-- Conversion of a validated request item to a stored item
(lines 145-150); the caller has established that all fields are present. -/
def toStoredItem (item : InvoiceItemBody) : InvoiceItem :=
  { description := item.description.getD ""
    quantity := item.quantity.getD 0
    rate := item.rate.getD 0
    amount := item.amount.getD 0 }

/-- Mongoose schema validation run by `save()` (Invoice.js): the `min`/`max`
bounds of the numeric fields. -/
def invoiceSchemaValid (inv : Invoice) : Bool :=
  inv.items.all (fun it => 1 ≤ it.quantity ∧ 0 ≤ it.rate ∧ 0 ≤ it.amount) &&
  0 ≤ inv.subtotal && 0 ≤ inv.taxRate && inv.taxRate ≤ 100 &&
  0 ≤ inv.taxAmount && 0 ≤ inv.total && 0 ≤ inv.paid

/-- The document constructed at lines 139-161 from a request body that passed
all handler checks, with the schema defaults for `paid`, `status` and
`clientStatus`. -/
def mkInvoiceDoc (count : Nat) (userId : Nat) (body : InvoiceBody) : Invoice :=
  { invoiceNo := genInvoiceNo count
    clientId := body.clientId.getD ""
    clientName := body.clientName.getD ""
    issueDate := body.issueDate.getD 0
    dueDate := body.dueDate.getD 0
    items := (body.items.getD []).map toStoredItem
    subtotal := body.subtotal.getD 0
    taxRate := body.taxRate.getD 0
    taxAmount := body.taxAmount.getD 0
    total := body.total.getD 0
    paid := 0
    status := "Unpaid"
    clientStatus := "Not Viewed"
    notes := body.notes
    createdBy := userId }

/-- Result of the creation route: HTTP error or the saved invoice (201). -/
inductive CreateInvoiceResult where
  | err (httpStatus : Nat) (msg : String)
  | ok (inv : Invoice)
deriving DecidableEq

/-- The invoice-creation handler. `count` is `Invoice.countDocuments()` at
line 135, i.e. the number of invoices existing when the handler runs. -/
def createInvoice (count : Nat) (userId : Nat) (body : InvoiceBody) :
    CreateInvoiceResult :=
  match body.clientId with
  | none => .err 400 "Client ID is required"
  | some cid =>
    if cid = "" then .err 400 "Client ID is required"
    else
      match body.clientName with
      | none => .err 400 "Client name is required"
      | some cn =>
        if cn = "" then .err 400 "Client name is required"
        else
          match body.issueDate with
          | none => .err 400 "Invalid issue date format"
          | some _ =>
            match body.dueDate with
            | none => .err 400 "Invalid due date format"
            | some _ =>
              match body.items with
              | none => .err 400 "At least one invoice item is required"
              | some its =>
                if its = [] then .err 400 "At least one invoice item is required"
                else
                  match validateItems its with
                  | some msg => .err 400 msg
                  | none =>
                    match body.subtotal with
                    | none => .err 400 "Subtotal must be a non-negative number"
                    | some st =>
                      if st < 0 then .err 400 "Subtotal must be a non-negative number"
                      else
                        match body.total with
                        | none => .err 400 "Total must be a non-negative number"
                        | some tot =>
                          if tot < 0 then .err 400 "Total must be a non-negative number"
                          else
                            let doc := mkInvoiceDoc count userId body
                            if invoiceSchemaValid doc then .ok doc
                            else .err 400 "Validation error"

/-! ## Case creation (cases.js, validateCaseData lines 15-38 and POST /
lines 119-159; apiResponse.js validationErrorResponse) -/

/-- The part of a case-creation request body inspected by
`validateCaseData`. `none` models an absent field. -/
structure CaseData where
  clientName : Option String
  clientNo : Option String
  caseType : Option String
  court : Option String
  petitioner : Option String
  respondent : Option String
deriving DecidableEq

/-- `!data.x?.trim()`: true when the field is absent or trims to the empty
string. -/
def isBlank : Option String → Bool
  | none => true
  | some s => s.trim = ""

/-- `validateCaseData` (lines 15-38): the field-keyed error map, in the
order the checks run. Returning `[]` corresponds to returning `null`. -/
def validateCaseData (data : CaseData) : List (String × String) :=
  (if isBlank data.clientName then [("clientName", "Client name is required")] else []) ++
  (if isBlank data.clientNo then [("clientNo", "Client number is required")] else []) ++
  (if isBlank data.caseType then [("caseType", "Case type is required")] else []) ++
  (if isBlank data.court then [("court", "Court is required")] else []) ++
  (if isBlank data.petitioner then [("petitioner", "Petitioner is required")] else []) ++
  (if isBlank data.respondent then [("respondent", "Respondent is required")] else [])

/-- A stored Case document, restricted to the fields the creation route
writes; the timeline holds entry descriptions. -/
structure CaseDoc where
  clientName : String
  clientNo : String
  caseType : String
  court : String
  petitioner : String
  respondent : String
  createdBy : Nat
  assignedTo : Nat
  timeline : List String
deriving DecidableEq

/-- Response of case creation: `validationErrorResponse` sends HTTP 422 with
the error map (apiResponse.js lines 47-53); success sends 201. -/
inductive CreateCaseResult where
  | validationError (httpStatus : Nat) (errors : List (String × String))
  | created (httpStatus : Nat) (c : CaseDoc)
deriving DecidableEq

/-- The case-creation handler (lines 119-159): validate, then save the new
document and append the initial "Case created" timeline entry in a second
save. Returns the response and the resulting case collection. -/
def createCase (userId : Nat) (assignedTo : Option Nat) (data : CaseData)
    (cases : List CaseDoc) : CreateCaseResult × List CaseDoc :=
  let errors := validateCaseData data
  if errors = [] then
    let newCase : CaseDoc :=
      { clientName := (data.clientName.getD "")
        clientNo := (data.clientNo.getD "")
        caseType := (data.caseType.getD "")
        court := (data.court.getD "")
        petitioner := (data.petitioner.getD "")
        respondent := (data.respondent.getD "")
        createdBy := userId
        assignedTo := assignedTo.getD userId
        timeline := ["Case created"] }
    (.created 201 newCase, cases ++ [newCase])
  else
    (.validationError 422 errors, cases)

/-- The six required fields in the order the source checks them. -/
def requiredCaseFields : List String :=
  ["clientName", "clientNo", "caseType", "court", "petitioner", "respondent"]

/-- Field access by name, for stating which fields of a request are blank. -/
def CaseData.fieldValue (d : CaseData) : String → Option String
  | "clientName" => d.clientName
  | "clientNo" => d.clientNo
  | "caseType" => d.caseType
  | "court" => d.court
  | "petitioner" => d.petitioner
  | "respondent" => d.respondent
  | _ => none

/-- The required fields of a request that are absent or blank after
trimming. -/
def blankFields (d : CaseData) : List String :=
  requiredCaseFields.filter (fun f => isBlank (d.fieldValue f))

/-! ## Tasks (tasks.js, PUT /:id lines 110-134, DELETE /:id lines 137-157,
PATCH /:id/toggle lines 160-182) -/

/-- A Task document, restricted to the fields the routes touch. -/
structure Task where
  title : String
  description : String
  dueDate : Int
  status : String
  priority : String
  completed : Bool
  userId : Nat
deriving DecidableEq

/-- A PUT request body: `findByIdAndUpdate` merges the supplied fields. -/
structure TaskUpdate where
  title : Option String
  description : Option String
  dueDate : Option Int
  status : Option String
  priority : Option String
  completed : Option Bool
deriving DecidableEq

/-- Merge of an update body into a task (findByIdAndUpdate semantics). -/
def applyTaskUpdate (t : Task) (u : TaskUpdate) : Task :=
  { title := u.title.getD t.title
    description := u.description.getD t.description
    dueDate := u.dueDate.getD t.dueDate
    status := u.status.getD t.status
    priority := u.priority.getD t.priority
    completed := u.completed.getD t.completed
    userId := t.userId }

/-- Response of a task route: HTTP error, the (updated) task, or the
deletion acknowledgement. -/
inductive TaskResponse where
  | err (httpStatus : Nat) (msg : String)
  | ok (t : Task)
  | okDeleted (msg : String)
deriving DecidableEq

/-- PUT /:id (lines 110-134): fetch, verify ownership, update. The second
component is the stored document afterwards. -/
def updateTask (task : Option Task) (callerId : Nat) (body : TaskUpdate) :
    TaskResponse × Option Task :=
  match task with
  | none => (.err 404 "Task not found", none)
  | some t =>
    if t.userId ≠ callerId then
      (.err 403 "Not authorized to update this task", some t)
    else
      let updated := applyTaskUpdate t body
      (.ok updated, some updated)

/-- DELETE /:id (lines 137-157): fetch, verify ownership, delete. -/
def deleteTask (task : Option Task) (callerId : Nat) :
    TaskResponse × Option Task :=
  match task with
  | none => (.err 404 "Task not found", none)
  | some t =>
    if t.userId ≠ callerId then
      (.err 403 "Not authorized to delete this task", some t)
    else
      (.okDeleted "Task deleted successfully", none)

/-- The mutation of the toggle route (lines 174-175): flip `completed`, then
set `status` from the new value. -/
def toggleOnce (t : Task) : Task :=
  let c := !t.completed
  { t with completed := c, status := if c then "Completed" else "In Progress" }

/-- PATCH /:id/toggle (lines 160-182): fetch, verify ownership, toggle. -/
def toggleTask (task : Option Task) (callerId : Nat) :
    TaskResponse × Option Task :=
  match task with
  | none => (.err 404 "Task not found", none)
  | some t =>
    if t.userId ≠ callerId then
      (.err 403 "Not authorized to modify this task", some t)
    else
      (.ok (toggleOnce t), some (toggleOnce t))

/-! ## Client deletion (clients.js, DELETE /:id lines 157-230) -/

/-- A Client document, restricted to the fields the routes touch.
`status` is the boolean active flag; `cases` is the embedded array of case
references. -/
structure Client where
  id : Nat
  name : String
  email : String
  mobile : String
  status : Bool
  cases : List Nat
deriving DecidableEq

/-- The state the delete handler reads and writes: the addressed client (as
found by `findById`) and, for each of the three referencing collections, the
`clientId` field of every document in it. -/
structure ClientsDb where
  client : Option Client
  caseClientIds : List Nat
  invoiceClientIds : List Nat
  appointmentClientIds : List Nat
deriving DecidableEq

/-- `Model.countDocuments({clientId : cid})`. -/
def countByClient (ids : List Nat) (cid : Nat) : Nat :=
  (ids.filter (fun x => x = cid)).length

/-- Message of the preliminary embedded-array check (lines 179-185). -/
def clientCasesMsg : String :=
  "Cannot delete client with active cases. Please remove or reassign all cases first."

/-- Message of the Case count check (lines 193-200). -/
def relatedCasesMsg (n : Nat) : String :=
  "Cannot delete client with " ++ toString n ++
    " related cases. Please remove or reassign all cases first."

/-- Message of the Invoice count check (lines 202-209). -/
def relatedInvoicesMsg (n : Nat) : String :=
  "Cannot delete client with " ++ toString n ++
    " related invoices. Please remove all invoices first."

/-- Message of the Appointment count check (lines 211-218). -/
def relatedAppointmentsMsg (n : Nat) : String :=
  "Cannot delete client with " ++ toString n ++
    " related appointments. Please remove all appointments first."

/-- Response of the delete route: `errorResponse` with an HTTP status, or
`successResponse` with a message. -/
inductive ClientDeleteResult where
  | err (httpStatus : Nat) (msg : String)
  | ok (msg : String)
deriving DecidableEq

/-- DELETE /:id (lines 157-230), after the ObjectId validity check. `soft`
is `req.query.soft === 'true'`. Returns the response and the resulting
state. -/
def deleteClient (db : ClientsDb) (softDelete : Bool) :
    ClientDeleteResult × ClientsDb :=
  match db.client with
  | none => (.err 404 "Client not found", db)
  | some c =>
    if softDelete then
      (.ok "Client deactivated successfully",
        { db with client := some { c with status := false } })
    else
      if c.cases ≠ [] then (.err 409 clientCasesMsg, db)
      else
        let relatedCasesCount := countByClient db.caseClientIds c.id
        if relatedCasesCount > 0 then
          (.err 409 (relatedCasesMsg relatedCasesCount), db)
        else
          let relatedInvoicesCount := countByClient db.invoiceClientIds c.id
          if relatedInvoicesCount > 0 then
            (.err 409 (relatedInvoicesMsg relatedInvoicesCount), db)
          else
            let relatedAppointmentsCount :=
              countByClient db.appointmentClientIds c.id
            if relatedAppointmentsCount > 0 then
              (.err 409 (relatedAppointmentsMsg relatedAppointmentsCount), db)
            else
              (.ok "Client deleted successfully", { db with client := none })

/-! ## Login (auth.js, POST /login lines 82-141) -/

/-- A User document, restricted to the fields login reads. `password` is the
stored hash. -/
structure User where
  id : Nat
  name : String
  email : String
  password : String
  role : String
  clientId : Option Nat
deriving DecidableEq

/-- The payload signed into the JWT (lines 116-124). -/
structure TokenPayload where
  userId : Nat
  role : String
  clientId : Option Nat
deriving DecidableEq

/-- Response of login: an HTTP error, or a token for the authenticated
user. -/
inductive LoginResult where
  | err (httpStatus : Nat) (msg : String)
  | ok (token : TokenPayload)
deriving DecidableEq

/-- POST /login. `cmp` abstracts `bcrypt`'s `comparePassword(hash, plain)`;
`users` and `clients` are the two collections (`findOne` takes the first
match). `none` request fields model absent ones. -/
def login (cmp : String → String → Bool) (users : List User)
    (clients : List Client) (email password : Option String) : LoginResult :=
  match email, password with
  | some e, some p =>
    if e = "" ∨ p = "" then .err 400 "Please enter all fields"
    else
      match users.find? (fun u => u.email = e) with
      | none => .err 400 "User does not exist"
      | some user =>
        if ¬ cmp user.password p then .err 400 "Invalid credentials"
        else
          if user.role = "client" then
            match clients.find? (fun c => c.email = user.email) with
            | none => .err 400 "Client account not found"
            | some client =>
              if ¬ client.status then
                .err 403 "Your account is currently inactive. Please contact support."
              else
                .ok { userId := user.id, role := user.role, clientId := some client.id }
          else
            .ok { userId := user.id, role := user.role, clientId := user.clientId }
  | _, _ => .err 400 "Please enter all fields"

/-! ## Claim theorems -/

theorem applyPayment_status (inv : Invoice) (a : ℚ) (hpos : 0 < inv.paid + a) :
    (applyPayment inv a).status =
      if inv.total ≤ inv.paid + a then "Paid" else "Partially Paid" := by
  unfold applyPayment
  by_cases h : inv.total ≤ inv.paid + a <;> simp [ge_iff_le, h, hpos]

/-- C1: recording a valid positive payment `a` on an invoice with paid `p`
and total `t` sets the cumulative paid amount to `p + a` and recomputes the
status as Paid iff `p + a ≥ t`, Partially Paid iff `0 < p + a < t`, and
Unpaid iff `p + a = 0` (the stored `paid` is nonnegative by the schema's
`min : 0`). -/
theorem payment_recompute_status (inv : Invoice) (a : ℚ)
    (hpaid : 0 ≤ inv.paid) (ha : 0 < a) :
    recordPayment (some inv) (some a) = .ok (applyPayment inv a) ∧
    (applyPayment inv a).paid = inv.paid + a ∧
    ((applyPayment inv a).status = "Paid" ↔ inv.paid + a ≥ inv.total) ∧
    ((applyPayment inv a).status = "Partially Paid" ↔
      0 < inv.paid + a ∧ inv.paid + a < inv.total) ∧
    ((applyPayment inv a).status = "Unpaid" ↔ inv.paid + a = 0) := by
  have hpos : 0 < inv.paid + a := add_pos_of_nonneg_of_pos hpaid ha
  have hstat := applyPayment_status inv a hpos
  refine ⟨by simp [recordPayment, not_le.mpr ha], rfl, ?_, ?_, ?_⟩
  · rw [hstat]
    by_cases h : inv.total ≤ inv.paid + a
    · simp [ge_iff_le, h]
    · simp only [if_neg h]
      constructor
      · intro hs; exact absurd hs (by decide)
      · intro hge; exact absurd hge h
  · rw [hstat]
    by_cases h : inv.total ≤ inv.paid + a
    · simp only [if_pos h]
      constructor
      · intro hs; exact absurd hs (by decide)
      · intro hc; exact absurd h (not_le.mpr hc.2)
    · simp [h, hpos, not_le.mp h]
  · rw [hstat]
    constructor
    · intro hs
      by_cases h : inv.total ≤ inv.paid + a
      · rw [if_pos h] at hs; exact absurd hs (by decide)
      · rw [if_neg h] at hs; exact absurd hs (by decide)
    · intro hz; exact absurd hz (ne_of_gt hpos)

/-- A concrete invoice used as a witness input. -/
def sampleInvoice : Invoice :=
  { invoiceNo := "INV-000001"
    clientId := "c1"
    clientName := "Acme"
    issueDate := 0
    dueDate := 30
    items := [⟨"consultation", 1, 100, 100⟩]
    subtotal := 100
    taxRate := 0
    taxAmount := 0
    total := 100
    paid := 30
    status := "Partially Paid"
    clientStatus := "Not Viewed"
    notes := none
    createdBy := 1 }

theorem payment_recompute_status_witness :
    recordPayment (some sampleInvoice) (some 50) =
      .ok (applyPayment sampleInvoice 50) ∧
    (applyPayment sampleInvoice 50).paid = sampleInvoice.paid + 50 ∧
    ((applyPayment sampleInvoice 50).status = "Paid" ↔
      sampleInvoice.paid + 50 ≥ sampleInvoice.total) ∧
    ((applyPayment sampleInvoice 50).status = "Partially Paid" ↔
      0 < sampleInvoice.paid + 50 ∧ sampleInvoice.paid + 50 < sampleInvoice.total) ∧
    ((applyPayment sampleInvoice 50).status = "Unpaid" ↔
      sampleInvoice.paid + 50 = 0) :=
  payment_recompute_status sampleInvoice 50 (by decide) (by decide)

/-- C2: in every observable state of an invoice, the serialized derived
field `balanceDue` equals `total - paid`. -/
theorem balance_due_invariant (inv : Invoice) :
    (Invoice.toJSON inv).balanceDue = inv.total - inv.paid := rfl

/-- C9: under the handler's amount validation (a numeric amount strictly
greater than 0) and the schema's `paid ≥ 0`, recording a payment never
yields status "Unpaid". -/
theorem payment_never_unpaid (inv : Invoice) (a : ℚ)
    (hpaid : 0 ≤ inv.paid) (ha : 0 < a) :
    recordPayment (some inv) (some a) = .ok (applyPayment inv a) ∧
    (applyPayment inv a).status ≠ "Unpaid" := by
  have hpos : 0 < inv.paid + a := add_pos_of_nonneg_of_pos hpaid ha
  refine ⟨by simp [recordPayment, not_le.mpr ha], ?_⟩
  rw [applyPayment_status inv a hpos]
  by_cases h : inv.total ≤ inv.paid + a
  · rw [if_pos h]; decide
  · rw [if_neg h]; decide

/-- A second concrete invoice, witness input for the never-Unpaid claim. -/
def sampleInvoice2 : Invoice :=
  { sampleInvoice with paid := 0, status := "Unpaid", total := 40 }

theorem payment_never_unpaid_witness :
    recordPayment (some sampleInvoice2) (some 10) =
      .ok (applyPayment sampleInvoice2 10) ∧
    (applyPayment sampleInvoice2 10).status ≠ "Unpaid" :=
  payment_never_unpaid sampleInvoice2 10 (by decide) (by decide)

/-- C7: a successful invoice creation with `count` invoices existing assigns
the invoice number "INV-" followed by the decimal representation of
`count + 1` left-padded with zeros to six digits. -/
theorem invoice_number_assignment (count userId : Nat) (body : InvoiceBody)
    (inv : Invoice) (h : createInvoice count userId body = .ok inv) :
    inv.invoiceNo = specInvoiceNo count := by
  unfold createInvoice at h
  repeat' split at h
  all_goals try (dsimp only at h; split at h)
  all_goals
    first
    | exact CreateInvoiceResult.noConfusion h
    | (injection h with h2; rw [← h2]; exact genInvoiceNo_eq_spec count)

/-- A concrete request body that passes every creation check. -/
def sampleInvoiceBody : InvoiceBody :=
  { clientId := some "c1"
    clientName := some "Acme"
    issueDate := some 0
    dueDate := some 30
    items := some [⟨some "consultation", some 2, some 100, some 200⟩]
    subtotal := some 200
    taxRate := none
    taxAmount := none
    total := some 200
    notes := none }

theorem invoice_number_assignment_witness :
    (mkInvoiceDoc 0 1 sampleInvoiceBody).invoiceNo = specInvoiceNo 0 :=
  invoice_number_assignment 0 1 sampleInvoiceBody
    (mkInvoiceDoc 0 1 sampleInvoiceBody) (by decide)

theorem validateCaseData_keys (d : CaseData) :
    (validateCaseData d).map Prod.fst = blankFields d := by
  simp only [validateCaseData, blankFields, requiredCaseFields,
    CaseData.fieldValue, List.filter_cons, List.filter_nil]
  cases h1 : isBlank d.clientName <;> cases h2 : isBlank d.clientNo <;>
    cases h3 : isBlank d.caseType <;> cases h4 : isBlank d.court <;>
    cases h5 : isBlank d.petitioner <;> cases h6 : isBlank d.respondent <;>
    simp [h1, h2, h3, h4, h5, h6]

/-- C3: a case-creation request with any of the six required fields absent
or blank after trimming is rejected with HTTP 422 and a field-keyed error
map whose keys are exactly the blank fields, and the case collection is
unchanged. -/
theorem case_create_validation (userId : Nat) (assignedTo : Option Nat)
    (d : CaseData) (cs : List CaseDoc) (h : blankFields d ≠ []) :
    (createCase userId assignedTo d cs).1 =
      .validationError 422 (validateCaseData d) ∧
    (createCase userId assignedTo d cs).2 = cs ∧
    (validateCaseData d).map Prod.fst = blankFields d := by
  have hkeys := validateCaseData_keys d
  have herr : validateCaseData d ≠ [] := by
    intro h0
    rw [h0] at hkeys
    exact h (by simpa using hkeys.symm)
  refine ⟨?_, ?_, hkeys⟩ <;> simp [createCase, herr]

/-- A concrete case-creation request: `clientName` absent, `caseType`
whitespace-only. -/
def sampleCaseData : CaseData :=
  { clientName := none
    clientNo := some "C-7"
    caseType := some "  "
    court := some "High Court"
    petitioner := some "A"
    respondent := some "B" }

theorem case_create_validation_witness :
    (createCase 1 none sampleCaseData []).1 =
      .validationError 422 (validateCaseData sampleCaseData) ∧
    (createCase 1 none sampleCaseData []).2 = [] ∧
    (validateCaseData sampleCaseData).map Prod.fst = blankFields sampleCaseData :=
  case_create_validation 1 none sampleCaseData [] (by decide)

/-- C4: a task update, delete or toggle by a caller who is not the task's
owner fails with HTTP 403 and leaves the stored task unmodified. -/
theorem task_ownership_enforced (t : Task) (callerId : Nat)
    (body : TaskUpdate) (h : callerId ≠ t.userId) :
    updateTask (some t) callerId body =
      (.err 403 "Not authorized to update this task", some t) ∧
    deleteTask (some t) callerId =
      (.err 403 "Not authorized to delete this task", some t) ∧
    toggleTask (some t) callerId =
      (.err 403 "Not authorized to modify this task", some t) := by
  have h' : t.userId ≠ callerId := Ne.symm h
  exact ⟨by simp [updateTask, h'], by simp [deleteTask, h'],
    by simp [toggleTask, h']⟩

/-- A concrete task owned by user 7. -/
def sampleTask : Task :=
  { title := "File brief"
    description := "Draft and file the appeal brief"
    dueDate := 10
    status := "Pending"
    priority := "Medium"
    completed := false
    userId := 7 }

theorem task_ownership_enforced_witness :
    updateTask (some sampleTask) 8 ⟨none, none, none, none, none, none⟩ =
      (.err 403 "Not authorized to update this task", some sampleTask) ∧
    deleteTask (some sampleTask) 8 =
      (.err 403 "Not authorized to delete this task", some sampleTask) ∧
    toggleTask (some sampleTask) 8 =
      (.err 403 "Not authorized to modify this task", some sampleTask) :=
  task_ownership_enforced sampleTask 8 ⟨none, none, none, none, none, none⟩
    (by decide)

/-- C10: toggling a task owned by the caller twice restores the `completed`
flag and leaves `status` at "Completed" when the flag ends true and
"In Progress" when it ends false, regardless of the starting status; in
particular it never returns to "Pending". -/
theorem toggle_twice (t : Task) (callerId : Nat) (h : callerId = t.userId) :
    toggleTask (some t) callerId = (.ok (toggleOnce t), some (toggleOnce t)) ∧
    toggleTask (some (toggleOnce t)) callerId =
      (.ok (toggleOnce (toggleOnce t)), some (toggleOnce (toggleOnce t))) ∧
    (toggleOnce (toggleOnce t)).completed = t.completed ∧
    (toggleOnce (toggleOnce t)).status =
      (if t.completed then "Completed" else "In Progress") ∧
    (toggleOnce (toggleOnce t)).status ≠ "Pending" := by
  subst h
  refine ⟨by simp [toggleTask], by simp [toggleTask, toggleOnce], ?_, ?_, ?_⟩
  · simp [toggleOnce]
  · cases hc : t.completed <;> simp [toggleOnce, hc]
  · cases hc : t.completed <;> simp [toggleOnce, hc]

/-- A concrete task starting in status "Pending", toggled by its owner. -/
def sampleTask2 : Task :=
  { sampleTask with status := "Pending", completed := false }

theorem toggle_twice_witness :
    toggleTask (some sampleTask2) 7 =
      (.ok (toggleOnce sampleTask2), some (toggleOnce sampleTask2)) ∧
    toggleTask (some (toggleOnce sampleTask2)) 7 =
      (.ok (toggleOnce (toggleOnce sampleTask2)),
        some (toggleOnce (toggleOnce sampleTask2))) ∧
    (toggleOnce (toggleOnce sampleTask2)).completed = sampleTask2.completed ∧
    (toggleOnce (toggleOnce sampleTask2)).status =
      (if sampleTask2.completed then "Completed" else "In Progress") ∧
    (toggleOnce (toggleOnce sampleTask2)).status ≠ "Pending" :=
  toggle_twice sampleTask2 7 rfl

/-- C6: a soft-delete request on an existing client succeeds, sets the
status flag to false, and changes nothing else: the other client fields and
the case/invoice/appointment collections are untouched. -/
theorem soft_delete_frame (db : ClientsDb) (c : Client)
    (h : db.client = some c) :
    deleteClient db true =
      (.ok "Client deactivated successfully",
        { db with client := some { c with status := false } }) := by
  simp [deleteClient, h]

/-- A concrete client (active, with one embedded case reference) and the
surrounding state: one Case document references it. -/
def sampleClient : Client :=
  { id := 5, name := "Jane Roe", email := "jane@example.com"
    mobile := "5550100", status := true, cases := [9] }

/-- State for the soft-delete witness. -/
def sampleSoftDb : ClientsDb :=
  { client := some sampleClient
    caseClientIds := [5]
    invoiceClientIds := [5]
    appointmentClientIds := [] }

theorem soft_delete_frame_witness :
    deleteClient sampleSoftDb true =
      (.ok "Client deactivated successfully",
        { sampleSoftDb with client := some { sampleClient with status := false } }) :=
  soft_delete_frame sampleSoftDb sampleClient rfl

/-- C5 counterexample: for a client whose embedded `cases` array is
non-empty, hard delete aborts before the count queries, with a message that
contains no digit at all — so it does not name the blocking count (here the
Case count is 1, and the claim would require the count-naming message). -/
theorem hard_delete_message_counterexample :
    deleteClient sampleSoftDb false = (.err 409 clientCasesMsg, sampleSoftDb) ∧
    countByClient sampleSoftDb.caseClientIds 5 = 1 ∧
    clientCasesMsg ≠ relatedCasesMsg 1 ∧
    clientCasesMsg.data.all (fun ch => !ch.isDigit) = true := by
  decide

/-- C5 (amended): on a hard-delete request for an existing client, a
non-empty embedded `cases` array always aborts with HTTP 409 and the
generic, count-free message, leaving the state unchanged; when that array
is empty the handler runs the count queries in the order Case, Invoice,
Appointment, where the first non-zero count aborts with HTTP 409 and a
message naming that entity type and count, leaving the state unchanged, and
only when all three counts are zero is the client removed. Moreover — with
or without the embedded-array precondition — a client with at least one
referencing Case document is never hard-deleted. -/
theorem hard_delete_checks (db : ClientsDb) (c : Client)
    (h : db.client = some c) :
    (c.cases ≠ [] →
      deleteClient db false = (.err 409 clientCasesMsg, db)) ∧
    (c.cases = [] →
      ((0 < countByClient db.caseClientIds c.id →
          deleteClient db false =
            (.err 409 (relatedCasesMsg (countByClient db.caseClientIds c.id)), db)) ∧
       (countByClient db.caseClientIds c.id = 0 →
        0 < countByClient db.invoiceClientIds c.id →
          deleteClient db false =
            (.err 409 (relatedInvoicesMsg (countByClient db.invoiceClientIds c.id)), db)) ∧
       (countByClient db.caseClientIds c.id = 0 →
        countByClient db.invoiceClientIds c.id = 0 →
        0 < countByClient db.appointmentClientIds c.id →
          deleteClient db false =
            (.err 409 (relatedAppointmentsMsg (countByClient db.appointmentClientIds c.id)), db)) ∧
       (countByClient db.caseClientIds c.id = 0 →
        countByClient db.invoiceClientIds c.id = 0 →
        countByClient db.appointmentClientIds c.id = 0 →
          deleteClient db false =
            (.ok "Client deleted successfully", { db with client := none })))) ∧
    (0 < countByClient db.caseClientIds c.id →
      (deleteClient db false).2.client = some c) := by
  refine ⟨?_, ?_, ?_⟩
  · intro hc; simp [deleteClient, h, hc]
  · intro hc
    refine ⟨?_, ?_, ?_, ?_⟩
    · intro h1; simp [deleteClient, h, hc, h1]
    · intro h1 h2; simp [deleteClient, h, hc, h1, h2]
    · intro h1 h2 h3; simp [deleteClient, h, hc, h1, h2, h3]
    · intro h1 h2 h3; simp [deleteClient, h, hc, h1, h2, h3]
  · intro hcase
    by_cases hc : c.cases = []
    · simp [deleteClient, h, hc, hcase]
    · simp [deleteClient, h, hc]

/-- State for the amended-claim witness: the client's embedded array is
empty but one Case document references it. -/
def sampleHardDb : ClientsDb :=
  { client := some { sampleClient with cases := [] }
    caseClientIds := [5]
    invoiceClientIds := []
    appointmentClientIds := [] }

theorem hard_delete_checks_witness :
    (deleteClient sampleHardDb false).2.client =
      some { sampleClient with cases := [] } :=
  (hard_delete_checks sampleHardDb { sampleClient with cases := [] } rfl).2.2
    (by decide)

/-- C8: a login by a user of role "client" whose password check succeeds
performs the extra lookup of the linked Client record; when that client's
status flag is false the handler answers HTTP 403 with the inactive-account
message and issues no token. -/
theorem client_login_inactive (cmp : String → String → Bool)
    (users : List User) (clients : List Client) (e p : String) (u : User)
    (cl : Client) (he : e ≠ "") (hp : p ≠ "")
    (hu : users.find? (fun x => x.email = e) = some u)
    (hcmp : cmp u.password p = true) (hrole : u.role = "client")
    (hcl : clients.find? (fun c => c.email = u.email) = some cl)
    (hst : cl.status = false) :
    login cmp users clients (some e) (some p) =
      .err 403 "Your account is currently inactive. Please contact support." ∧
    ∀ tok, login cmp users clients (some e) (some p) ≠ .ok tok := by
  have hmain : login cmp users clients (some e) (some p) =
      .err 403 "Your account is currently inactive. Please contact support." := by
    simp [login, he, hp, hu, hcmp, hrole, hcl, hst]
  exact ⟨hmain, fun tok => by rw [hmain]; simp⟩

/-- A concrete user/client pair: role "client", matching stored password,
inactive client record. -/
def sampleUser : User :=
  { id := 1, name := "Jo", email := "jo@example.com", password := "hash1"
    role := "client", clientId := none }

/-- The linked (inactive) client record for the login witness. -/
def sampleLoginClient : Client :=
  { id := 3, name := "Jo", email := "jo@example.com", mobile := "5550101"
    status := false, cases := [] }

theorem client_login_inactive_witness :
    login (fun stored given => stored == given) [sampleUser]
        [sampleLoginClient] (some "jo@example.com") (some "hash1") =
      .err 403 "Your account is currently inactive. Please contact support." ∧
    ∀ tok, login (fun stored given => stored == given) [sampleUser]
        [sampleLoginClient] (some "jo@example.com") (some "hash1") ≠ .ok tok :=
  client_login_inactive (fun stored given => stored == given) [sampleUser]
    [sampleLoginClient] "jo@example.com" "hash1" sampleUser sampleLoginClient
    (by decide) (by decide) (by decide) (by decide) (by decide) (by decide)
    (by decide)

end LegalCMS
